import Mathlib

/-!
Verification of the health-check / connection-management core of a FastAPI
boilerplate service (shallow embedding of `src/app/db/__init__.py`,
`src/app/api/v1/endpoints/health.py`, `src/app/services/health_service.py`
and the relevant parts of `src/app/core/config.py`).

Modelling conventions:
* SQLAlchemy engines are identified by natural-number ids drawn from a
  fresh-name supply (`DBState.nextId`); object identity of a pool instance
  is id equality.
* The mutable module-level singleton `db_manager` is the explicit state
  `DBState` threaded through every operation.
* Interactions with the database driver can raise exceptions in Python; the
  outcomes of those external calls for one execution are collected in an
  `Env` record (does `create_engine` raise, does `engine.connect()` raise,
  does `connection.execute` raise, what does the session-scoped query do).
  Python functions that may propagate an exception return `Except`; a
  function returning a plain pair is one whose `try/except Exception`
  handler catches everything that can arise in its body.
-/

/-- The connection-pool related application settings
(`src/app/core/config.py`, class `Settings`).  Only fields the health flow
reads are kept; defaults mirror the source.  Python's `int` is modelled as
`Int`. -/
structure Settings where
  PROJECT_NAME : String := "FastAPI Cursor Boilerplate"
  VERSION : String := "0.1.0"
  DATABASE_SERVER : String := "localhost"
  DATABASE_POOL_SIZE : Int := 5
  DATABASE_MAX_OVERFLOW : Int := 10
  DATABASE_POOL_TIMEOUT : Int := 30
  DATABASE_POOL_RECYCLE : Int := 3600
deriving Repr, DecidableEq

/-- Outcomes of the external (database-driver) calls made during one
execution of the health flow.  `dbQuery` is the behaviour of
`self.db.execute(...)`/`fetchone()` in `HealthService.health_check`:
either it raises (with the exception's string rendering) or it returns,
the `Bool` recording whether `fetchone()` produced a row. -/
structure Env where
  createEngineFails : Bool
  connectFails : Bool
  execFails : Bool
  dbQuery : Except String Bool
  now : String
deriving Repr

/-- The mutable state of the module-level `db_manager` singleton
(`src/app/db/__init__.py`, class `DatabaseManager`), plus a fresh-id
supply `nextId` modelling heap allocation of engine objects and a log
`disposed` of the engine ids on which `dispose()` was called. -/
structure DBState where
  engine : Option Nat
  sessionFactory : Option Nat
  nextId : Nat
  disposed : List Nat
deriving Repr, DecidableEq

/-- The state of a freshly constructed `DatabaseManager` (`__init__`):
both cached singletons are `None`. -/
def DBState.init : DBState :=
  { engine := none, sessionFactory := none, nextId := 0, disposed := [] }

namespace DatabaseManager

/-- Embeds `DatabaseManager.create_database_engine`
(src/app/db/__init__.py, lines 26-64): calls `create_engine`, which may
raise; on failure the exception is logged and re-raised (`Except.error`),
on success a fresh engine object is returned.  Event-listener registration
and logging are side effects with no functional content. -/
def create_database_engine (env : Env) (s : DBState) :
    Except Unit (Nat × DBState) :=
  if env.createEngineFails then Except.error ()
  else Except.ok (s.nextId, { s with nextId := s.nextId + 1 })

/-- Embeds `DatabaseManager.get_engine` (src/app/db/__init__.py, lines
66-70): returns the cached engine if present, otherwise constructs it via
`create_database_engine` and caches it. -/
def get_engine (env : Env) (s : DBState) : Except Unit (Nat × DBState) :=
  match s.engine with
  | some e => Except.ok (e, s)
  | none =>
    match create_database_engine env s with
    | Except.error err => Except.error err
    | Except.ok (eng, s1) => Except.ok (eng, { s1 with engine := some eng })

/-- Embeds `DatabaseManager.get_session_factory` (src/app/db/__init__.py,
lines 72-81): returns the cached factory if present, otherwise obtains the
engine and creates a factory bound to it (the factory is tagged with the
id of the engine it is bound to). -/
def get_session_factory (env : Env) (s : DBState) :
    Except Unit (Nat × DBState) :=
  match s.sessionFactory with
  | some f => Except.ok (f, s)
  | none =>
    match get_engine env s with
    | Except.error err => Except.error err
    | Except.ok (eng, s1) =>
      Except.ok (eng, { s1 with sessionFactory := some eng })

/-- Embeds `DatabaseManager.close_connections` (src/app/db/__init__.py,
lines 83-89): if an engine is cached (`if self._engine:` — a non-None
engine object is truthy) it is disposed and the cache cleared; the session
factory cache is cleared unconditionally. -/
def close_connections (s : DBState) : DBState :=
  let s1 :=
    match s.engine with
    | some e => { s with disposed := s.disposed ++ [e], engine := none }
    | none => s
  { s1 with sessionFactory := none }

end DatabaseManager

/-- The result dict of `get_connection_info` (src/app/db/__init__.py,
lines 177-183). -/
structure ConnInfo where
  status : String
  pool_configured : String
  connection_test : String
deriving Repr, DecidableEq

/-- Embeds the module-level `get_connection_info`
(src/app/db/__init__.py, lines 158-183).  The `try` block obtains the
engine via `get_engine()` (line 166), sets `connection_status =
"configured"`, opens a connection and executes `SELECT 1 as test_value`,
then sets `connection_status = "connected"`; the `except Exception`
handler (line 173) catches any exception raised anywhere in the block and
sets `connection_status = "failed"`.  The result dict is built after the
handler, so the function always returns normally.  `pool_configured` is
`"yes" if settings.DATABASE_POOL_SIZE else "no"`: Python int truthiness,
i.e. nonzero. -/
def get_connection_info (st : Settings) (env : Env) (s : DBState) :
    ConnInfo × DBState :=
  let (connection_status, s1) :=
    match DatabaseManager.get_engine env s with
    | Except.error _ => ("failed", s)
    | Except.ok (_, s1) =>
      if env.connectFails then ("failed", s1)
      else if env.execFails then ("failed", s1)
      else ("connected", s1)
  ({ status := connection_status,
     pool_configured := if st.DATABASE_POOL_SIZE ≠ 0 then "yes" else "no",
     connection_test :=
       if connection_status = "connected" then "passed" else "failed" },
   s1)

/-- The service-status dict built by `_get_service_status`
(src/app/api/v1/endpoints/health.py, lines 16-27). -/
structure ServiceStatus where
  status : String
  timestamp : String
  service : String
  version : String
deriving Repr, DecidableEq

/-- The database-status dict built by `_get_database_status`
(src/app/api/v1/endpoints/health.py, lines 30-63). -/
structure DbStatusBody where
  status : String
  pool_configured : String
  connection_test : String
deriving Repr, DecidableEq

/-- The response body of the `GET /health/` handler
(src/app/api/v1/endpoints/health.py, lines 104-114). -/
structure HealthBody where
  status : String
  message : String
  timestamp : String
  service : ServiceStatus
  database : DbStatusBody
deriving Repr, DecidableEq

namespace HealthEndpoint

/-- Embeds `_get_service_status` (src/app/api/v1/endpoints/health.py,
lines 16-27): a static "ok" status with the current timestamp and the
configured project name and version. -/
def get_service_status (st : Settings) (env : Env) : ServiceStatus :=
  { status := "ok", timestamp := env.now,
    service := st.PROJECT_NAME, version := st.VERSION }

/-- Embeds `_get_database_status` (src/app/api/v1/endpoints/health.py,
lines 30-63): calls `get_connection_info` and normalizes its `status` to
`"connected"` or `"error"`, forwarding `pool_configured` and
`connection_test` (the `.get(key, "unknown")` defaults never fire because
`get_connection_info` always supplies both keys).  The `except` branch is
unreachable because `get_connection_info` never raises. -/
def get_database_status (st : Settings) (env : Env) (s : DBState) :
    DbStatusBody × DBState :=
  let (ci, s1) := get_connection_info st env s
  if ci.status = "connected" then
    ({ status := "connected", pool_configured := ci.pool_configured,
       connection_test := ci.connection_test }, s1)
  else
    ({ status := "error", pool_configured := ci.pool_configured,
       connection_test := ci.connection_test }, s1)

/-- Embeds the `GET /health/` handler `health_check`
(src/app/api/v1/endpoints/health.py, lines 66-114): gathers service and
database status, computes `overall_healthy = (service_status["status"] ==
"ok" and database_status["status"] == "connected")`, and returns the
composed body.  The logging calls have no functional effect. -/
def health_check (st : Settings) (env : Env) (s : DBState) :
    HealthBody × DBState :=
  let service_status := get_service_status st env
  let (database_status, s1) := get_database_status st env s
  let overall_healthy :=
    service_status.status = "ok" ∧ database_status.status = "connected"
  ({ status := if overall_healthy then "healthy" else "unhealthy",
     message :=
       if overall_healthy then "All systems operational"
       else "Some systems have issues",
     timestamp := service_status.timestamp,
     service := service_status,
     database := database_status }, s1)

/-- Modelled from the spec: the HTTP routing layer
(FastAPI, not under src/) serves `GET /health/` by calling the handler
and, since the route declares no custom status code and the handler
returns normally, responding with HTTP 200 and the returned body
("`GET /health/` → 200, JSON body"). -/
def health_route (st : Settings) (env : Env) (s : DBState) :
    Nat × HealthBody × DBState :=
  (200, health_check st env s)

end HealthEndpoint

/-- The two custom exception classes of
src/app/services/health_service.py; only `DatabaseConnectionError` is
raised by `HealthService.health_check`. -/
inductive HealthServiceExc
  | healthCheckError
  | databaseConnectionError
deriving Repr, DecidableEq

/-- The `checks` sub-dict of the stricter health variant's body
(src/app/services/health_service.py, lines 85-93).  `query_error` models
the optionally-present `"query_error"` key: `none` when the key is
absent, `some m` when present with value `m` (itself optional because
`query_error_msg` can be Python `None`). -/
structure Checks where
  database_connection : Bool
  database_query : Bool
  query_error : Option (Option String)
deriving Repr, DecidableEq

/-- The body returned by `HealthService.health_check`
(src/app/services/health_service.py, lines 78-93). -/
structure ServiceHealthBody where
  status : String
  message : String
  checks : Checks
  connection_info : ConnInfo
deriving Repr, DecidableEq

namespace HealthService

/-- Embeds `HealthService.health_check`
(src/app/services/health_service.py, lines 42-105): runs
`get_connection_info`; raises `DatabaseConnectionError` when its status
is not `"connected"`; otherwise runs `SELECT 1 as test_value` through the
injected session (`env.dbQuery`), catching any exception and recording
`str(query_error)` as `query_error_msg`; on query success
`query_successful` is whether `fetchone()` returned a row.  The
`"query_error"` key is added to `checks` exactly when the query was not
successful. -/
def health_check (st : Settings) (env : Env) (s : DBState) :
    Except HealthServiceExc (ServiceHealthBody × DBState) :=
  let (connection_info, s1) := get_connection_info st env s
  let is_connected : Bool := connection_info.status = "connected"
  if is_connected then
    let (query_successful, query_error_msg) :=
      match env.dbQuery with
      | Except.ok r => (r, (none : Option String))
      | Except.error msg => (false, some msg)
    let overall_healthy : Bool := is_connected && query_successful
    Except.ok
      ({ status := if overall_healthy then "healthy" else "unhealthy",
         message :=
           if overall_healthy then "All systems operational"
           else "Some systems have issues",
         checks :=
           { database_connection := is_connected,
             database_query := query_successful,
             query_error :=
               if query_successful then none else some query_error_msg },
         connection_info := connection_info }, s1)
  else
    Except.error HealthServiceExc.databaseConnectionError

end HealthService

/-- An execution environment in which every external database call
succeeds and the probe query returns one row. -/
def envAllOk : Env :=
  { createEngineFails := false, connectFails := false, execFails := false,
    dbQuery := Except.ok true, now := "2026-10-12T00:00:00+00:00" }

/-- An execution environment in which the database server is unreachable:
engine construction succeeds (SQLAlchemy connects lazily) but
`engine.connect()` raises. -/
def envDownHost : Env :=
  { createEngineFails := false, connectFails := true, execFails := false,
    dbQuery := Except.ok true, now := "2026-10-12T00:00:00+00:00" }

/-- An execution environment in which connectivity is fine but the
session-scoped scalar query raises an exception rendered as "boom". -/
def envQueryBoom : Env :=
  { createEngineFails := false, connectFails := false, execFails := false,
    dbQuery := Except.error "boom", now := "2026-10-12T00:00:00+00:00" }

/-- The manager state after one successful engine construction from
`DBState.init`: engine id 0 cached, fresh-id supply at 1. -/
def DBState.one : DBState :=
  { engine := some 0, sessionFactory := none, nextId := 1, disposed := [] }

/-- The scenario settings of claim C4: pool size 5, unreachable server. -/
def settingsDownHost : Settings :=
  { DATABASE_POOL_SIZE := 5, DATABASE_SERVER := "down-host" }

/-- C1: for every request, the `GET /health/` handler returns overall
status "healthy" iff the gathered service status is "ok" and the gathered
database status is "connected"; every other combination yields
"unhealthy" (plain logical AND). -/
theorem C1_health_check_healthy_iff (st : Settings) (env : Env)
    (s : DBState) :
    ((HealthEndpoint.health_check st env s).1.status = "healthy" ↔
      ((HealthEndpoint.health_check st env s).1.service.status = "ok" ∧
       (HealthEndpoint.health_check st env s).1.database.status
         = "connected")) ∧
    ((HealthEndpoint.health_check st env s).1.status = "healthy" ∨
     (HealthEndpoint.health_check st env s).1.status = "unhealthy") := by
  rcases env with ⟨cef, cf, ef, q, now⟩
  rcases s with ⟨eng, sf, n, d⟩
  cases eng <;> cases cef <;> cases cf <;> cases ef <;>
    simp [HealthEndpoint.health_check, HealthEndpoint.get_database_status,
      HealthEndpoint.get_service_status, get_connection_info,
      DatabaseManager.get_engine, DatabaseManager.create_database_engine]

/-- C2: in every execution of `get_connection_info` in which an exception
is raised by an external call — engine construction actually runs and
fails (possible only when no engine is cached), or `engine.connect()` or
the probe query raises — the exception is caught and the result has
`status = "failed"` and `connection_test = "failed"`; the function's
total return type records that no exception propagates to the caller. -/
theorem C2_get_connection_info_failure_reported (st : Settings)
    (env : Env) (s : DBState)
    (h : (s.engine = none ∧ env.createEngineFails = true) ∨
      env.connectFails = true ∨ env.execFails = true) :
    (get_connection_info st env s).1.status = "failed" ∧
    (get_connection_info st env s).1.connection_test = "failed" := by
  rcases env with ⟨cef, cf, ef, q, now⟩
  rcases s with ⟨eng, sf, n, d⟩
  cases eng <;> cases cef <;> cases cf <;> cases ef <;>
    simp_all [get_connection_info, DatabaseManager.get_engine,
      DatabaseManager.create_database_engine]

/-- Witness for C2: with no cached engine and failing engine
construction, the probe reports the failure. -/
theorem C2_witness :
    (DBState.init.engine = none ∧
      ({ envAllOk with createEngineFails := true } : Env).createEngineFails
        = true) ∧
    (get_connection_info {} { envAllOk with createEngineFails := true }
        DBState.init).1.status = "failed" ∧
    (get_connection_info {} { envAllOk with createEngineFails := true }
        DBState.init).1.connection_test = "failed" :=
  ⟨⟨rfl, rfl⟩,
    C2_get_connection_info_failure_reported {}
      { envAllOk with createEngineFails := true } DBState.init
      (Or.inl ⟨rfl, rfl⟩)⟩

/-- C9: every execution of `get_connection_info` yields a `status` that
is either "connected" or "failed" (the intermediate "configured" never
survives to the result, and "unconfigured" is never produced), and
`connection_test` is "passed" exactly when `status` is "connected". -/
theorem C9_get_connection_info_status_range (st : Settings) (env : Env)
    (s : DBState) :
    ((get_connection_info st env s).1.status = "connected" ∨
     (get_connection_info st env s).1.status = "failed") ∧
    ((get_connection_info st env s).1.connection_test = "passed" ↔
     (get_connection_info st env s).1.status = "connected") := by
  rcases env with ⟨cef, cf, ef, q, now⟩
  rcases s with ⟨eng, sf, n, d⟩
  cases eng <;> cases cef <;> cases cf <;> cases ef <;>
    simp [get_connection_info, DatabaseManager.get_engine,
      DatabaseManager.create_database_engine]

/-- Counterexample to C8 as stated: with configured pool size -1 (a valid
value of the `int`-typed setting) the pool size is not positive, yet
`get_connection_info` reports `pool_configured = "yes"`, because the code
tests Python truthiness (nonzero), not positivity. -/
theorem C8_counterexample :
    (get_connection_info { DATABASE_POOL_SIZE := -1 } envAllOk
        DBState.init).1.pool_configured = "yes" ∧
    ¬ (0 : Int) < ({ DATABASE_POOL_SIZE := -1 } : Settings).DATABASE_POOL_SIZE
      ∧ ¬ (get_connection_info { DATABASE_POOL_SIZE := -1 } envAllOk
        DBState.init).1.pool_configured = "no" := by
  refine ⟨rfl, by decide, ?_⟩
  decide

/-- C8 amended: in every execution of `get_connection_info`, the
`pool_configured` field is "yes" exactly when the configured pool size is
nonzero and "no" exactly when it is zero, and its value is independent of
the execution environment and manager state (hence of whether the
connectivity test succeeded or failed). -/
theorem C8_pool_configured_nonzero (st : Settings) (env env2 : Env)
    (s s2 : DBState) :
    ((get_connection_info st env s).1.pool_configured = "yes" ↔
      st.DATABASE_POOL_SIZE ≠ 0) ∧
    ((get_connection_info st env s).1.pool_configured = "no" ↔
      st.DATABASE_POOL_SIZE = 0) ∧
    (get_connection_info st env s).1.pool_configured =
      (get_connection_info st env2 s2).1.pool_configured := by
  have hpc : ∀ (e : Env) (t : DBState),
      (get_connection_info st e t).1.pool_configured =
        if st.DATABASE_POOL_SIZE ≠ 0 then "yes" else "no" := by
    intro e t
    rcases hm : DatabaseManager.get_engine e t with err | ok <;>
      simp [get_connection_info, hm]
  rw [hpc env s, hpc env2 s2]
  by_cases h : st.DATABASE_POOL_SIZE = 0 <;> simp [h]

/-- Counterexample to C4 as stated: in the pool-size-5 /
unreachable-server scenario the handler's body carries
`database.status = "error"` — the endpoint's `_get_database_status`
normalizes every non-"connected" probe status to "error" — so the claimed
`database.status = "failed"` is false. -/
theorem C4_counterexample :
    (HealthEndpoint.health_route settingsDownHost envDownHost
        DBState.init).2.1.database.status = "error" ∧
    ¬ (HealthEndpoint.health_route settingsDownHost envDownHost
        DBState.init).2.1.database.status = "failed" := by
  refine ⟨rfl, ?_⟩
  decide

/-- C4 amended: for a configuration with pool size 5 and an unreachable
database server, `GET /health/` responds with HTTP 200 and a body whose
top-level status is "unhealthy", whose `database.status` field is
"error", and whose `database.pool_configured` field is "yes". -/
theorem C4_health_route_down_scenario :
    (HealthEndpoint.health_route settingsDownHost envDownHost
        DBState.init).1 = 200 ∧
    (HealthEndpoint.health_route settingsDownHost envDownHost
        DBState.init).2.1.status = "unhealthy" ∧
    (HealthEndpoint.health_route settingsDownHost envDownHost
        DBState.init).2.1.database.status = "error" ∧
    (HealthEndpoint.health_route settingsDownHost envDownHost
        DBState.init).2.1.database.pool_configured = "yes" :=
  ⟨rfl, rfl, rfl, rfl⟩

/-- C3: `HealthService.health_check` raises `DatabaseConnectionError`
exactly when the probe reports a status other than "connected"; when the
probe reports "connected" but the session query raises, the exception is
caught, its message is recorded under the `query_error` key of the
returned body, and the overall status is "unhealthy" with no exception
propagating (witnessed by the `Except.ok` result). -/
theorem C3_health_service_error_policy (st : Settings) (env : Env)
    (s : DBState) :
    (HealthService.health_check st env s =
        Except.error HealthServiceExc.databaseConnectionError ↔
      ¬ (get_connection_info st env s).1.status = "connected") ∧
    (∀ msg : String,
      (get_connection_info st env s).1.status = "connected" →
      env.dbQuery = Except.error msg →
      ∃ body s1,
        HealthService.health_check st env s = Except.ok (body, s1) ∧
        body.checks.query_error = some (some msg) ∧
        body.status = "unhealthy") := by
  rcases hci : get_connection_info st env s with ⟨ci, s1⟩
  by_cases h : ci.status = "connected"
  · constructor
    · rcases hq : env.dbQuery with msg | r <;>
        simp [HealthService.health_check, hci, h, hq]
    · intro msg hc hq
      simp only [HealthService.health_check, hci, h, hq]
      simp
  · constructor
    · simp [HealthService.health_check, hci, h]
    · intro msg hc hq
      exact absurd hc h

/-- Witness for C3: with a healthy probe and a session query that raises
"boom", the service returns an unhealthy body carrying the message. -/
theorem C3_witness :
    (get_connection_info {} envQueryBoom DBState.init).1.status
      = "connected" ∧
    ∃ body s1,
      HealthService.health_check {} envQueryBoom DBState.init =
        Except.ok (body, s1) ∧
      body.checks.query_error = some (some "boom") ∧
      body.status = "unhealthy" :=
  ⟨rfl,
    (C3_health_service_error_policy {} envQueryBoom DBState.init).2 "boom"
      rfl rfl⟩

/-- C5: `get_engine` is idempotent without an intervening
`close_connections`: if a call returns engine `e` in state `s1`, every
subsequent call (whatever its environment, since the cache is consulted
first) returns the identical cached engine `e` and leaves the state —
including the fresh-id supply — exactly `s1`, so no second construction
occurs. -/
theorem C5_get_engine_idempotent (env env2 : Env) (s s1 : DBState)
    (e : Nat)
    (h : DatabaseManager.get_engine env s = Except.ok (e, s1)) :
    DatabaseManager.get_engine env2 s1 = Except.ok (e, s1) := by
  have hcache : s1.engine = some e := by
    rcases hs : s.engine with _ | e0
    · by_cases hcef : env.createEngineFails = true
      · simp [DatabaseManager.get_engine,
          DatabaseManager.create_database_engine, hs, hcef] at h
      · simp [DatabaseManager.get_engine,
          DatabaseManager.create_database_engine, hs, hcef] at h
        obtain ⟨he, hs1⟩ := h
        subst he
        subst hs1
        rfl
    · simp [DatabaseManager.get_engine, hs] at h
      obtain ⟨he, hs1⟩ := h
      subst hs1
      rw [hs, he]
  simp [DatabaseManager.get_engine, hcache]

/-- Witness for C5: from the initial state a first call constructs engine
0 and reaches `DBState.one`; a second call returns the same engine and
state. -/
theorem C5_witness :
    DatabaseManager.get_engine envAllOk DBState.one =
      Except.ok (0, DBState.one) :=
  C5_get_engine_idempotent envAllOk envAllOk DBState.init DBState.one 0 rfl

/-- C6: after `close_connections` on a manager holding engine `e` (whose
id, as an allocated object, precedes the fresh-id supply), both caches
are cleared, and the next `get_engine` (with engine construction
succeeding) constructs a fresh engine whose identity differs from `e`,
advancing the fresh-id supply by one (a new construction). -/
theorem C6_close_then_fresh_engine (env : Env) (s : DBState) (e : Nat)
    (he : s.engine = some e) (hwf : e < s.nextId)
    (hc : env.createEngineFails = false) :
    (DatabaseManager.close_connections s).engine = none ∧
    (DatabaseManager.close_connections s).sessionFactory = none ∧
    ∃ e2 s2,
      DatabaseManager.get_engine env (DatabaseManager.close_connections s)
        = Except.ok (e2, s2) ∧ e2 ≠ e ∧ s2.nextId = s.nextId + 1 := by
  rcases s with ⟨eng, sf, n, d⟩
  obtain rfl : eng = some e := he
  refine ⟨rfl, rfl, n,
    { engine := some n, sessionFactory := none, nextId := n + 1,
      disposed := d ++ [e] }, ?_, ?_, rfl⟩
  · simp [DatabaseManager.close_connections, DatabaseManager.get_engine,
      DatabaseManager.create_database_engine, hc]
  · have hlt : e < n := hwf
    omega

/-- Witness for C6: closing the one-engine state and re-acquiring yields
a different engine id. -/
theorem C6_witness :
    DBState.one.engine = some 0 ∧ 0 < DBState.one.nextId ∧
    envAllOk.createEngineFails = false ∧
    ((DatabaseManager.close_connections DBState.one).engine = none ∧
     (DatabaseManager.close_connections DBState.one).sessionFactory
       = none ∧
     ∃ e2 s2,
       DatabaseManager.get_engine envAllOk
           (DatabaseManager.close_connections DBState.one)
         = Except.ok (e2, s2) ∧ e2 ≠ 0 ∧
         s2.nextId = DBState.one.nextId + 1) :=
  ⟨rfl, by decide, rfl,
    C6_close_then_fresh_engine envAllOk DBState.one 0 rfl (by decide) rfl⟩

/-- C7: `close_connections` is idempotent: on a manager with no cached
engine and no cached session factory it is a no-op (the whole state,
including the disposal log, is unchanged, so no disposal is attempted),
and calling it twice in a row always equals calling it once. -/
theorem C7_close_connections_idem :
    (∀ s : DBState, s.engine = none → s.sessionFactory = none →
      DatabaseManager.close_connections s = s) ∧
    (∀ s : DBState,
      DatabaseManager.close_connections
          (DatabaseManager.close_connections s)
        = DatabaseManager.close_connections s) := by
  constructor
  · rintro ⟨eng, sf, n, d⟩ he hf
    simp_all [DatabaseManager.close_connections]
  · rintro ⟨eng, sf, n, d⟩
    cases eng <;> simp [DatabaseManager.close_connections]

/-- Witness for C7: the uninitialized state is untouched, and a double
close of the one-engine state equals a single close. -/
theorem C7_witness :
    DatabaseManager.close_connections DBState.init = DBState.init ∧
    DatabaseManager.close_connections
        (DatabaseManager.close_connections DBState.one)
      = DatabaseManager.close_connections DBState.one :=
  ⟨C7_close_connections_idem.1 DBState.init rfl rfl,
   C7_close_connections_idem.2 DBState.one⟩
